import Mathlib

/-!
# Verification of the retrieval / ranking / fallback core

Shallow embedding of the retrieval and ranking subsystem of the
smartcorrection repository (services `demoVectorService.ts`,
`vectorService.ts`, `enhancedRagService.ts`, `demoProcessor.ts`,
`ragService.ts`) together with proofs of the claimed spec properties.

Modelling conventions:
* JavaScript numbers are idealised as exact reals (`ℝ`); the purely
  rational keyword-scoring arithmetic of `DemoProcessor` is modelled
  over `ℚ`.  `NaN` — which arises in this code base only from reading a
  vector component past the end of the shorter array in the unguarded
  `cosineSimilarity` implementations — is modelled by `Option ℝ`
  (`none` = `NaN`, `some x` = the real value `x`).
* `Array.prototype.sort` (stable since ES2019) with the comparator
  `(a, b) => b.similarity - a.similarity` is modelled by
  `List.insertionSort` (a stable sort) with the relation
  "`a` may stay before `b` iff the comparator does not force a swap".
* Promise-returning external services (OpenAI embeddings and chat,
  Hugging Face embeddings, Groq / Gemini / Cohere / Together chat) are
  modelled by an environment record of functions returning
  `Except String _` (`.error` = rejected promise / thrown error).
  The storage collaborator is modelled by passing the chunk collection
  as an argument; it is assumed not to fail, so `try`/`catch` blocks
  whose body can only fail through the modelled services are translated
  by matching on the `Except` values.
-/

/-! ## JavaScript string primitives -/

/-- `String.prototype.toLowerCase`, adequate for the ASCII data of this
repository. -/
def jsToLower (s : String) : String :=
  ⟨s.data.map Char.toLower⟩

/-- Does `pat` occur at the head of `l`? (helper for `jsIncludes`). -/
def jsStartsWith : List Char → List Char → Bool
  | [], _ => true
  | _ :: _, [] => false
  | p :: ps, c :: cs => p == c && jsStartsWith ps cs

/-- Does `pat` occur anywhere in `l`? (helper for `jsIncludes`). -/
def jsHasSub (pat : List Char) : List Char → Bool
  | [] => pat.isEmpty
  | c :: cs => jsStartsWith pat (c :: cs) || jsHasSub pat cs

/-- `String.prototype.includes`. -/
def jsIncludes (s pat : String) : Bool :=
  jsHasSub pat.data s.data

/-- Maximal runs of non-whitespace characters (helper for `jsSplitWs`);
`acc` is the reversed current run. -/
def jsWordsAux (acc : List Char) : List Char → List (List Char)
  | [] => if acc.isEmpty then [] else [acc.reverse]
  | c :: cs =>
    if c.isWhitespace then
      if acc.isEmpty then jsWordsAux [] cs
      else acc.reverse :: jsWordsAux [] cs
    else jsWordsAux (c :: acc) cs

/-- `String.prototype.split(/\s+/)`: splits on maximal whitespace runs;
an empty string yields `[""]`, and leading (resp. trailing) whitespace
contributes one leading (resp. trailing) empty-string element. -/
def jsSplitWs (s : String) : List String :=
  match s.data with
  | [] => [""]
  | c :: cs =>
    (if c.isWhitespace then [""] else []) ++
      (jsWordsAux [] (c :: cs)).map String.mk ++
      (if ((c :: cs).getLastD c).isWhitespace then [""] else [])

/-- `String.prototype.substring(0, n)` (the only form used here). -/
def jsTake (s : String) (n : Nat) : String :=
  ⟨s.data.take n⟩

/-- Length in UTF-16 code units; the repository's data is ASCII, so this
is the character count. -/
def jsLen (s : String) : Nat :=
  s.data.length

/-! ## JavaScript numbers with NaN

`none` is `NaN`.  An out-of-range array read yields `undefined`, and
`undefined` entering any arithmetic operation yields `NaN`, so the read
`b[i]` inside an arithmetic expression is modelled by
`(b.get? i : Option ℝ)` combined with NaN-propagating operations. -/

/-- JS number with NaN (`none`). -/
abbrev JsNum := Option ℝ

/-- NaN-propagating addition. -/
def jsAdd : JsNum → JsNum → JsNum
  | some a, some b => some (a + b)
  | _, _ => none

/-- NaN-propagating multiplication (also `number * undefined = NaN`). -/
def jsMul : JsNum → JsNum → JsNum
  | some a, some b => some (a * b)
  | _, _ => none

/-- NaN-propagating subtraction. -/
def jsSub : JsNum → JsNum → JsNum
  | some a, some b => some (a - b)
  | _, _ => none

/-- NaN-propagating division.  Division by zero is modelled as `none`;
in the embedded code every division is guarded by a zero test on the
denominator, so this case is never exercised. -/
noncomputable def jsDiv : JsNum → JsNum → JsNum
  | some a, some b => if b = 0 then none else some (a / b)
  | _, _ => none

/-- The JS comparison `x >= t` for a possibly-NaN `x` and a real
threshold `t`: false when `x` is NaN. -/
noncomputable def jsGeB (x : JsNum) (t : ℝ) : Bool :=
  match x with
  | some v => decide (t ≤ v)
  | none => false

/-! ## Data model (`shared/schema.ts`) -/

/-- `VectorChunk.metadata`. -/
structure ChunkMeta where
  documentId : Nat
  documentName : String
  type : String
  chunkIndex : Nat
deriving DecidableEq

/-- `VectorChunk`: a unit of retrievable text with an embedding. -/
structure VectorChunk where
  id : String
  text : String
  embedding : List ℝ
  metadata : ChunkMeta

/-- `VectorChunk & { similarity: σ }` — a chunk annotated with a
similarity score (`σ` is `JsNum` in the cosine pipelines and `ℚ` in the
exactly-rational keyword scorer of `DemoProcessor`). -/
structure Ranked (σ : Type) extends VectorChunk where
  similarity : σ

/-- One element of `RAGResponse.sources`. -/
structure RAGSource (σ : Type) where
  documentName : String
  chunkId : String
  text : String
  type : String
  similarity : σ

/-- `RAGResponse`. -/
structure RAGResponse (σ : Type) where
  answer : String
  sources : List (RAGSource σ)
  reasoning : String

/-- External services: each field models one remote backend call.
`.error msg` models a rejected promise / thrown error. -/
structure Env where
  /-- `VectorService.generateQueryEmbedding` (OpenAI embeddings). -/
  openaiEmbed : String → Except String (List ℝ)
  /-- `FreeApiService.generateHuggingFaceEmbeddings([query])[0]`. -/
  hfEmbed : String → Except String (List ℝ)
  /-- Whether `OPENAI_API_KEY`/`VITE_OPENAI_API_KEY` is set and differs
  from `"placeholder_key"`. -/
  openaiKeyValid : Bool
  /-- The `openai.chat.completions.create` call of
  `RAGService.generateRAGResponse`; `some`/`none` is the nullable
  `choices[0]?.message?.content`. -/
  openaiChat : String → String → Except String (Option String)
  /-- `FreeApiService.generateGroqResponse`. -/
  groq : String → String → Except String String
  /-- `FreeApiService.generateGeminiResponse`. -/
  gemini : String → String → Except String String
  /-- `FreeApiService.generateCohereResponse`. -/
  cohere : String → String → Except String String
  /-- `FreeApiService.generateTogetherResponse`. -/
  together : String → String → Except String String

/-! ## `DemoVectorService` (`demoVectorService.ts`) -/

/-- ECMAScript `ToInt32`: wrap an integer into `[-2^31, 2^31)`. -/
def toInt32 (x : Int) : Int :=
  (x + 2 ^ 31) % 2 ^ 32 - 2 ^ 31

namespace DemoVectorService

/-- One iteration of `simpleHash`:
`hash = ((hash << 5) - hash) + charCode; hash = hash & hash`.
`hash << 5` itself coerces to 32 bits, and `& hash` wraps the result. -/
def simpleHashStep (h : Int) (c : Char) : Int :=
  toInt32 (toInt32 (h * 32) - h + (c.toNat : Int))

/-- `DemoVectorService.simpleHash`: rolling 32-bit hash, absolute value. -/
def simpleHash (s : String) : Nat :=
  (s.data.foldl simpleHashStep 0).natAbs

/-- Sum of squares, as `reduce((sum, val) => sum + val * val, 0)`. -/
noncomputable def sumSq (l : List ℝ) : ℝ :=
  l.foldl (fun s x => s + x * x) 0

/-- `embedding[i] += w` on the 384-slot feature array, modelled as a
function `Fin 384 → ℝ`. -/
noncomputable def addAt (e : Fin 384 → ℝ) (i : Fin 384) (w : ℝ) : Fin 384 → ℝ :=
  Function.update e i (e i + w)

/-- The word pass of `generateSingleEmbedding`:
`words.forEach((word, index) => embedding[simpleHash(word) % 384] += 1 / (index + 1))`. -/
noncomputable def wordPass (words : List String) : Fin 384 → ℝ :=
  words.enum.foldl
    (fun e iw =>
      addAt e ⟨simpleHash iw.2 % 384, Nat.mod_lt _ (by norm_num)⟩
        (1 / ((iw.1 : ℝ) + 1)))
    (fun _ => 0)

/-- One keyword boost: `if (text.includes(p) || text.includes(q)) embedding[i] += w`. -/
noncomputable def boost (text p q : String) (i : Fin 384) (w : ℝ) (e : Fin 384 → ℝ) :
    Fin 384 → ℝ :=
  if jsIncludes text p || jsIncludes text q then addAt e i w else e

/-- The feature vector of `generateSingleEmbedding` before L2
normalisation: the word pass followed by the eight keyword boosts, in
source order. -/
noncomputable def preNormEmbedding (text : String) : Fin 384 → ℝ :=
  let e0 := wordPass (jsSplitWs (jsToLower text))
  let e1 := boost text "Nathan" "nathan" 100 2 e0
  let e2 := boost text "Robert" "robert" 101 2 e1
  let e3 := boost text "stress" "financial" 200 1.5 e2
  let e4 := boost text "work" "employment" 201 1.5 e3
  let e5 := boost text "sobriety" "meetings" 202 1.5 e4
  let e6 := boost text "policy" "procedure" 300 1.5 e5
  let e7 := boost text "grievance" "appeal" 301 1.5 e6
  boost text "programming" "treatment" 302 1.5 e7

/-- `DemoVectorService.generateSingleEmbedding`: build the feature
vector, then `embedding.map(val => magnitude > 0 ? val / magnitude : 0)`
with `magnitude = Math.sqrt(Σ val²)`. -/
noncomputable def generateSingleEmbedding (text : String) : List ℝ :=
  let v := List.ofFn (preNormEmbedding text)
  let magnitude := Real.sqrt (sumSq v)
  v.map fun val => if 0 < magnitude then val / magnitude else 0

/-- `DemoVectorService.cosineSimilarity`: returns `0` on a length
mismatch; otherwise a single loop over `i < a.length` accumulates the
dot product and both squared norms (both arrays are indexed only in
range, so no NaN can arise and the result is a plain real). -/
noncomputable def cosineSimilarity (a b : List ℝ) : ℝ :=
  if a.length ≠ b.length then 0
  else
    let dotProduct := ((List.range a.length).map fun i => a.getD i 0 * b.getD i 0).sum
    let normA := ((List.range a.length).map fun i => a.getD i 0 * a.getD i 0).sum
    let normB := ((List.range a.length).map fun i => b.getD i 0 * b.getD i 0).sum
    let magnitude := Real.sqrt normA * Real.sqrt normB
    if 0 < magnitude then dotProduct / magnitude else 0

/-- `chunks.map(chunk => ({...chunk, similarity: cosineSimilarity(queryEmbedding, chunk.embedding)}))`. -/
noncomputable def rankAll (queryEmbedding : List ℝ) (chunks : List VectorChunk) :
    List (Ranked ℝ) :=
  chunks.map fun c => ⟨c, cosineSimilarity queryEmbedding c.embedding⟩

/-- `DemoVectorService.findSimilarChunks` (source defaults
`topK = 5`, `threshold = 0.01`): score, filter by
`similarity >= threshold`, stable-sort descending, take `topK`. -/
noncomputable def findSimilarChunks (queryEmbedding : List ℝ)
    (chunks : List VectorChunk) (topK : Nat) (threshold : ℝ) :
    List (Ranked ℝ) :=
  letI : DecidableRel fun a b : Ranked ℝ => b.similarity ≤ a.similarity :=
    fun _ _ => Real.decidableLE _ _
  (((rankAll queryEmbedding chunks).filter fun c =>
      decide (threshold ≤ c.similarity)).insertionSort
      (fun a b => b.similarity ≤ a.similarity)).take topK

/-- `DemoVectorService.findSimilarChunksByType` (source defaults
`topK = 3`, `threshold = 0.01`): filter by `metadata.type === type`,
then delegate to `findSimilarChunks`. -/
noncomputable def findSimilarChunksByType (queryEmbedding : List ℝ)
    (chunks : List VectorChunk) (type : String) (topK : Nat) (threshold : ℝ) :
    List (Ranked ℝ) :=
  findSimilarChunks queryEmbedding (chunks.filter fun c => c.metadata.type == type)
    topK threshold

end DemoVectorService

/-! ## Shared similarity plumbing for the cosine pipelines -/

/-- Sum of squares over a whole array,
`xs.reduce((sum, val) => sum + val * val, 0)`. -/
noncomputable def sumSqAll (l : List ℝ) : ℝ :=
  l.foldl (fun s x => s + x * x) 0

/-- The order relation realised by the stable JS sort with comparator
`(a, b) => b.similarity - a.similarity`: `a` may stay before `b` iff the
comparator does not return a positive number (NaN included, since
`NaN > 0` is false). -/
def descKeep (a b : Ranked JsNum) : Prop :=
  match jsSub b.similarity a.similarity with
  | some d => d ≤ 0
  | none => True

noncomputable instance : DecidableRel descKeep := fun a b => by
  unfold descKeep
  cases jsSub b.similarity a.similarity with
  | none => exact inferInstanceAs (Decidable True)
  | some d => exact Real.decidableLE d 0

/-! ## `VectorService` (`vectorService.ts`) -/

namespace VectorService

/-- `VectorService.cosineSimilarity`: no length guard.  The dot product
indexes `b` with `a`'s indices, so when `a` is longer than `b` an
out-of-range read makes the dot product NaN; both norms range over the
respective whole arrays and are plain reals.  Returns `0` when either
magnitude is `0` (checked before the division, so a NaN dot product
still yields NaN unless a magnitude vanishes). -/
noncomputable def cosineSimilarity (a b : List ℝ) : JsNum :=
  let dotProduct := (List.range a.length).foldl
    (fun sum i => jsAdd sum (jsMul (a.get? i) (b.get? i))) (some 0)
  let magnitudeA := Real.sqrt (sumSqAll a)
  let magnitudeB := Real.sqrt (sumSqAll b)
  if magnitudeA = 0 ∨ magnitudeB = 0 then some 0
  else jsDiv dotProduct (some (magnitudeA * magnitudeB))

/-- `chunks.map(chunk => ({...chunk, similarity: ...}))`. -/
noncomputable def rankAll (queryEmbedding : List ℝ) (chunks : List VectorChunk) :
    List (Ranked JsNum) :=
  chunks.map fun c => ⟨c, cosineSimilarity queryEmbedding c.embedding⟩

/-- `VectorService.findSimilarChunks` (source defaults `topK = 5`,
`threshold = 0.7`). -/
noncomputable def findSimilarChunks (queryEmbedding : List ℝ)
    (chunks : List VectorChunk) (topK : Nat) (threshold : ℝ) :
    List (Ranked JsNum) :=
  (((rankAll queryEmbedding chunks).filter fun i =>
      jsGeB i.similarity threshold).insertionSort descKeep).take topK

/-- `VectorService.findSimilarChunksByType` (source defaults `topK = 3`,
`threshold = 0.7`). -/
noncomputable def findSimilarChunksByType (queryEmbedding : List ℝ)
    (chunks : List VectorChunk) (type : String) (topK : Nat) (threshold : ℝ) :
    List (Ranked JsNum) :=
  findSimilarChunks queryEmbedding (chunks.filter fun c => c.metadata.type == type)
    topK threshold

/-- Result record of `VectorService.multiHopRetrieval`. -/
structure RetrievalResult where
  transcriptChunks : List (Ranked JsNum)
  policyChunks : List (Ranked JsNum)
  queryEmbedding : List ℝ

/-- `VectorService.multiHopRetrieval`: embed the query (OpenAI), then
rank the transcript and policy partitions independently; an embedding
failure fails the whole call. -/
noncomputable def multiHopRetrieval (env : Env) (query : String)
    (chunks : List VectorChunk) (transcriptTopK policyTopK : Nat) :
    Except String RetrievalResult :=
  match env.openaiEmbed query with
  | .error e => .error e
  | .ok queryEmbedding =>
    .ok ⟨findSimilarChunksByType queryEmbedding chunks "transcript" transcriptTopK 0.7,
         findSimilarChunksByType queryEmbedding chunks "policy" policyTopK 0.7,
         queryEmbedding⟩

end VectorService

/-! ## `EnhancedRAGService` (`enhancedRagService.ts`) -/

/-- The fusion step shared verbatim by
`RAGService.generateRAGResponse` and
`EnhancedRAGService.processQueryWithFallbacks`:
`[...transcriptChunks, ...policyChunks].sort((a, b) => b.similarity - a.similarity).slice(0, 8)`. -/
noncomputable def fuseTop8 (transcriptChunks policyChunks : List (Ranked JsNum)) :
    List (Ranked JsNum) :=
  ((transcriptChunks ++ policyChunks).insertionSort descKeep).take 8

/-- The context block shared verbatim by `RAGService.generateRAGResponse`
and `EnhancedRAGService.processQueryWithFallbacks`: for each ranked chunk
in order, `[i+1] Document: name (type)\ntext`, joined by blank lines. -/
def buildContext (chunks : List (Ranked JsNum)) : String :=
  String.intercalate "\n\n" <| chunks.enum.map fun ic =>
    "[" ++ toString (ic.1 + 1) ++ "] Document: " ++ ic.2.metadata.documentName ++
      " (" ++ ic.2.metadata.type ++ ")\n" ++ ic.2.text

namespace EnhancedRAGService

/-- `EnhancedRAGService.cosineSimilarity`: same unguarded reduce-based
computation as `VectorService.cosineSimilarity`. -/
noncomputable def cosineSimilarity (a b : List ℝ) : JsNum :=
  let dotProduct := (List.range a.length).foldl
    (fun sum i => jsAdd sum (jsMul (a.get? i) (b.get? i))) (some 0)
  let magnitudeA := Real.sqrt (sumSqAll a)
  let magnitudeB := Real.sqrt (sumSqAll b)
  if magnitudeA = 0 ∨ magnitudeB = 0 then some 0
  else jsDiv dotProduct (some (magnitudeA * magnitudeB))

/-- `EnhancedRAGService.findSimilarChunksByType` (source default
`topK = 3`; threshold `0.3` is hard-coded). -/
noncomputable def findSimilarChunksByType (queryEmbedding : List ℝ)
    (chunks : List VectorChunk) (type : String) (topK : Nat) :
    List (Ranked JsNum) :=
  ((((chunks.filter fun c => c.metadata.type == type).map fun c =>
      (⟨c, cosineSimilarity queryEmbedding c.embedding⟩ : Ranked JsNum)).filter fun i =>
      jsGeB i.similarity 0.3).insertionSort descKeep).take topK

/-- `EnhancedRAGService.tryOpenAI`: unconditionally
`throw new Error('OpenAI not available')`. -/
def tryOpenAI (query context : String) : Except String String :=
  .error "OpenAI not available"

/-- The ordered generation-backend list of
`processQueryWithFallbacks` with each backend's outcome. -/
def apiList (env : Env) (query context : String) :
    List (String × Except String String) :=
  [("OpenAI", tryOpenAI query context),
   ("Groq", env.groq query context),
   ("Google Gemini", env.gemini query context),
   ("Cohere", env.cohere query context),
   ("Together AI", env.together query context)]

/-- The `for (const api of apis) { try { answer = await api.fn(); apiUsed
= api.name; break } catch { continue } }` loop: returns
`(answer, apiUsed)`, both `""` when every backend fails. -/
def runApis : List (String × Except String String) → String × String
  | [] => ("", "")
  | (name, .ok a) :: _ => (a, name)
  | (_, .error _) :: rest => runApis rest

/-- `EnhancedRAGService.generateContentAnalysisResponse`: fixed answer
and reasoning, sources are the first 5 chunks with a 200-character
excerpt (the `"..."` marker is appended unconditionally). -/
def generateContentAnalysisResponse (query : String)
    (relevantChunks : List (Ranked JsNum)) : RAGResponse JsNum :=
  { answer := "Content analysis response based on available documents.",
    sources := (relevantChunks.take 5).map fun c =>
      ⟨c.metadata.documentName, c.id, jsTake c.text 200 ++ "...",
       c.metadata.type, c.similarity⟩,
    reasoning := "Generated using content analysis fallback when APIs are unavailable." }

/-- Lines 50–112 of `processQueryWithFallbacks`: fuse the two ranked
lists, bail out if empty, try the generation cascade, fall back to
content analysis when no backend produced a (non-empty) answer. -/
noncomputable def afterRanking (env : Env) (query : String)
    (transcriptChunks policyChunks : List (Ranked JsNum)) : RAGResponse JsNum :=
  let allRelevantChunks := fuseTop8 transcriptChunks policyChunks
  if allRelevantChunks.length = 0 then
    { answer := "I couldn't find any relevant information in the processed documents to answer your question.",
      sources := [],
      reasoning := "No relevant chunks found with sufficient similarity to the query." }
  else
    let context := buildContext allRelevantChunks
    let res := runApis (apiList env query context)
    if res.1 = "" then generateContentAnalysisResponse query allRelevantChunks
    else
      { answer := res.1,
        sources := allRelevantChunks.map fun c =>
          ⟨c.metadata.documentName, c.id,
           if jsLen c.text > 300 then jsTake c.text 300 ++ "..." else c.text,
           c.metadata.type, c.similarity⟩,
        reasoning := "Retrieved " ++ toString allRelevantChunks.length ++
          " relevant chunks. Answer generated using " ++ res.2 ++
          " API with retrieved context." }

/-- `EnhancedRAGService.processQueryWithFallbacks`.  The two call sites
that hand the raw chunk list (without a similarity field) to
`generateContentAnalysisResponse` are modelled with similarity `none`
(the sources then carry JavaScript `undefined`, i.e. no number).  The
outer `catch` never rethrows, and with a non-failing storage
collaborator nothing inside the outer `try` can throw (every backend
call is individually handled), so the function is total. -/
noncomputable def processQueryWithFallbacks (env : Env) (query : String)
    (allChunks : List VectorChunk) : RAGResponse JsNum :=
  if allChunks.length = 0 then
    { answer := "No documents have been indexed yet. Please upload and process some documents first.",
      sources := [],
      reasoning := "No vector data available for retrieval." }
  else
    let hasEmbeddings := allChunks.any fun c => c.embedding.length > 0
    if hasEmbeddings then
      match VectorService.multiHopRetrieval env query allChunks 3 3 with
      | .ok r => afterRanking env query r.transcriptChunks r.policyChunks
      | .error _ =>
        match env.hfEmbed query with
        | .ok queryEmbedding =>
          afterRanking env query
            (findSimilarChunksByType queryEmbedding allChunks "transcript" 3)
            (findSimilarChunksByType queryEmbedding allChunks "policy" 3)
        | .error _ =>
          generateContentAnalysisResponse query (allChunks.map fun c => ⟨c, none⟩)
    else
      generateContentAnalysisResponse query (allChunks.map fun c => ⟨c, none⟩)

end EnhancedRAGService

/-! ## `RAGService` (`ragService.ts`) -/

/-- Index of the first occurrence of `pat` in `l` (helper for the
regex-replacement model in `cleanSourceText`). -/
def findSubIdx (pat : List Char) : List Char → Option Nat
  | [] => if pat.isEmpty then some 0 else none
  | c :: cs =>
    if jsStartsWith pat (c :: cs) then some 0
    else (findSubIdx pat cs).map (· + 1)

namespace RAGService

/-- Model of `replace(/A.*?B/gs, '')`: remove every minimal span
starting at an occurrence of `startP` and ending with the next
occurrence of `endP` (dot-all, non-greedy, global). -/
def removeSpansAux (startP endP : List Char) (hs : startP ≠ []) :
    List Char → List Char
  | [] => []
  | c :: cs =>
    if jsStartsWith startP (c :: cs) then
      let rest := (c :: cs).drop startP.length
      match findSubIdx endP rest with
      | some i => removeSpansAux startP endP hs (rest.drop (i + endP.length))
      | none => c :: removeSpansAux startP endP hs cs
    else c :: removeSpansAux startP endP hs cs
termination_by l => l.length
decreasing_by
  · simp only [List.length_drop, List.length_cons]
    have h1 : 1 ≤ startP.length := by
      cases startP with
      | nil => exact absurd rfl hs
      | cons a as => exact Nat.succ_le_succ (Nat.zero_le _)
    omega
  · simp [Nat.lt_succ_self]
  · simp [Nat.lt_succ_self]

/-- String wrapper for `removeSpansAux`. -/
def removeSpans (startP endP : String) (hs : startP.data ≠ []) (s : String) :
    String :=
  ⟨removeSpansAux startP.data endP.data hs s.data⟩

/-- Does a line match `/^\s*num\s*txt.*$/`? (helper for the `gm`-flagged
line-removal replacements of `cleanSourceText`). -/
def lineMatches (num txt : String) (line : List Char) : Bool :=
  let l1 := line.dropWhile Char.isWhitespace
  jsStartsWith num.data l1 &&
    jsStartsWith txt.data ((l1.drop num.data.length).dropWhile Char.isWhitespace)

/-- Model of `replace(/^\s*num\s*txt.*$/gm, '')`: blank out every line
matching the pattern (the newline itself is kept). -/
def removeLines (num txt : String) (s : String) : String :=
  String.intercalate "\n" <|
    (s.splitOn "\n").map fun line =>
      if lineMatches num txt line.data then "" else line

/-- Model of `replace(/pat.*$/gs, '')`: drop everything from the first
occurrence of `pat` to the end of the string. -/
def removeTail (pat : String) (s : String) : String :=
  match findSubIdx pat.data s.data with
  | some i => ⟨s.data.take i⟩
  | none => s

/-- `RAGService.cleanSourceText`: strip system-generated boilerplate
spans and lines, trim, and truncate to 200 characters with an ellipsis
marker. -/
def cleanSourceText (text : String) : String :=
  let t1 := removeSpans "For the Community Corrections RAG system"
    "stored for semantic search..." (by decide) text
  let t2 := removeSpans "This document would be:" "semantic search..." (by decide) t1
  let t3 := removeLines "1." "Parsed to extract" t2
  let t4 := removeLines "2." "Chunked into" t3
  let t5 := removeLines "3." "Converted to" t4
  let t6 := removeLines "4." "Stored for" t5
  let t7 := removeTail "Document processing steps:" t6
  let cleanText := t7.trim
  if jsLen cleanText > 200 then jsTake cleanText 200 ++ "..." else cleanText

/-- `RAGService.extractKeyInfo`. -/
def extractKeyInfo (chunks : List (Ranked JsNum)) (query : String) : String :=
  let content := jsToLower (String.intercalate " " (chunks.map (·.text)))
  let documentNames := chunks.map (·.metadata.documentName)
  if jsIncludes query "transport" || jsIncludes query "travel" then
    if jsIncludes content "robert" then
      "Robert has mentioned transportation challenges related to getting to work and appointments. He has discussed issues with vehicle reliability and the impact on his job at the fencing company."
    else
      "Transportation challenges have been discussed including difficulties with reliable transportation to work and appointments."
  else if jsIncludes query "session" && jsIncludes query "nathan" then
    let nathanSessions := documentNames.filter fun n => jsIncludes (jsToLower n) "nathan"
    "Nathan has had " ++ toString nathanSessions.length ++
      " documented supervision sessions covering topics like financial stress, work situations, and coping strategies."
  else if jsIncludes query "session" && jsIncludes query "robert" then
    let robertSessions := documentNames.filter fun n => jsIncludes (jsToLower n) "robert"
    "Robert has had " ++ toString robertSessions.length ++
      " documented supervision sessions discussing work progress, transportation, and compliance."
  else if jsIncludes query "stress" || jsIncludes query "anxiety" then
    if jsIncludes content "nathan" then
      "Nathan has discussed financial stress related to property taxes ($2,000 payment) and demonstrated positive coping strategies, saying 'there's nothing wrong with being stressed, that's part of life right? It's more of how you handle your stress.'"
    else
      "Stress management and coping strategies have been important topics, including work-related stress and financial pressures."
  else if jsIncludes query "work" || jsIncludes query "employ" then
    if jsIncludes content "robert" && jsIncludes content "nathan" then
      "Robert works for a fencing company and has been there about eight months with increasing responsibilities. Nathan has work-related financial stress but maintains employment. Both show different employment situations and challenges."
    else if jsIncludes content "robert" then
      "Robert works for a fencing company, has been there about eight months, gets along well with his crew, and his boss is happy with his work. The physical demands help him stay focused."
    else if jsIncludes content "nathan" then
      "Nathan has employment but faces financial stress including property tax obligations that impact his budget and stress levels."
    else
      "Employment status and work situations have been regularly discussed, including job stability and workplace challenges."
  else
    "Multiple aspects of supervision and personal challenges have been discussed across sessions."

/-- `RAGService.extractPolicyInfo`. -/
def extractPolicyInfo (chunks : List (Ranked JsNum)) (query : String) : String :=
  let _content := jsToLower (String.intercalate " " (chunks.map (·.text)))
  if jsIncludes query "grievance" || jsIncludes query "appeal" then
    if jsIncludes query "time" || jsIncludes query "deadline" then
      "Grievance and appeal policy specifies: grievances must be submitted within 24 hours of incident using Form CC-101, Assistant Director conducts preliminary review within 72 hours, appeals filed within 5 business days, final appeal decisions issued within 15 business days."
    else
      "The grievance and appeal policy establishes procedures for participants to file complaints using Form CC-101, with Assistant Director review and appeal processes to different supervisors."
  else if jsIncludes query "program" || jsIncludes query "treatment" then
    if jsIncludes query "substance" || jsIncludes query "abuse" then
      "Programming requirements for substance abuse cases include: mandatory participation for those with substance abuse history, group therapy 3 times weekly, individual counseling weekly, plus employment preparation, life skills development, and educational programming."
    else
      "Programming includes substance abuse treatment (group therapy, individual counseling), employment preparation (job readiness, resume building), life skills (financial literacy, anger management), and educational components (GED, vocational training). Minimum 6 hours weekdays, 4 hours weekends."
  else if jsIncludes query "time" || jsIncludes query "deadline" then
    "Policy timeframes include: grievances within 24 hours, preliminary review within 72 hours, appeals within 5 business days, final decisions within 15 business days. Programming requires 6 hours minimum weekdays, 4 hours weekends."
  else if jsIncludes query "check" || jsIncludes query "guideline" then
    "Check-in guidelines establish procedures for regular supervision contacts, documentation requirements, and compliance monitoring protocols."
  else
    "The policy documents outline comprehensive procedures including grievance processes, programming requirements, intervention principles, and operational standards for Community Corrections."

/-- `RAGService.extractTranscriptInfo`. -/
def extractTranscriptInfo (_chunks : List (Ranked JsNum)) (query : String) : String :=
  if jsIncludes query "compare" || jsIncludes query "both" then
    "The transcripts show different individual situations and progress patterns across supervision sessions."
  else if jsIncludes query "challenge" || jsIncludes query "problem" then
    "Various challenges and obstacles have been discussed including personal, work-related, and compliance issues."
  else
    "The supervision sessions document ongoing progress, challenges, and interactions between clients and case managers."

/-- `RAGService.generateGenericResponse`. -/
def generateGenericResponse (query : String) (chunks : List (Ranked JsNum)) : String :=
  if chunks.length = 0 then
    "I couldn't find specific information related to your query in the processed Community Corrections documents. Please ensure relevant documents have been uploaded and processed."
  else
    let transcriptCount := (chunks.filter fun c => c.metadata.type == "transcript").length
    let policyCount := (chunks.filter fun c => c.metadata.type == "policy").length
    if jsIncludes query "transport" then
      "Transportation issues have been documented in supervision sessions, including challenges with vehicle reliability and getting to work or appointments."
    else if jsIncludes query "session" || jsIncludes query "meeting" then
      "Based on the processed documents, there are multiple supervision sessions documented with ongoing progress reviews and case management interactions."
    else if jsIncludes query "time" || jsIncludes query "deadline" then
      "The Community Corrections policies specify various timeframes including 24-hour grievance submission, 72-hour reviews, 5-day appeal windows, and 15-day final decisions."
    else if jsIncludes query "program" || jsIncludes query "treatment" then
      "Programming requirements include substance abuse treatment, employment preparation, life skills development, and educational components with specific time commitments."
    else if jsIncludes query "policy" || jsIncludes query "procedure" then
      "The policy documents outline comprehensive procedures for grievances, appeals, programming, intervention principles, and operational standards."
    else
      "Based on the available Community Corrections documents (" ++ toString transcriptCount ++
        " transcript sections, " ++ toString policyCount ++
        " policy sections), I found relevant content but need more specific context to provide a detailed answer."

/-- `RAGService.generateContentAnalysisResponse`: the deterministic
content-analysis fallback.  Note that in the Robert/Nathan
direct-match branches the already-built `sources` array (one entry per
relevant chunk) additionally receives up to three direct-match chunks
by `push`, and that in the `compare` branch with no Robert/Nathan text
matches both `answer` and `reasoning` remain `""`. -/
def generateContentAnalysisResponse (query : String)
    (relevantChunks : List (Ranked JsNum)) : RAGResponse JsNum :=
  if relevantChunks.length = 0 then
    { answer := "I couldn't find any relevant information in the processed documents to answer your question.",
      sources := [],
      reasoning := "No relevant chunks found with sufficient similarity to the query." }
  else
    let queryLower := jsToLower query
    let sources : List (RAGSource JsNum) := relevantChunks.map fun c =>
      ⟨c.metadata.documentName, c.id,
       if jsLen c.text > 300 then jsTake c.text 300 ++ "..." else c.text,
       c.metadata.type, c.similarity⟩
    let topChunks := relevantChunks.take 5
    let transcriptChunks := topChunks.filter fun c => c.metadata.type == "transcript"
    let policyChunks := topChunks.filter fun c => c.metadata.type == "policy"
    let directNathanChunks := relevantChunks.filter fun c =>
      jsIncludes (jsToLower c.text) "nathan" ||
        jsIncludes (jsToLower c.metadata.documentName) "nathan"
    let directRobertChunks := relevantChunks.filter fun c =>
      jsIncludes (jsToLower c.text) "robert" ||
        jsIncludes (jsToLower c.metadata.documentName) "robert"
    if jsIncludes queryLower "robert" && directRobertChunks.length > 0 then
      { answer := "Based on Robert's supervision sessions: " ++
          extractKeyInfo directRobertChunks queryLower,
        sources := sources ++ (directRobertChunks.take 3).map fun c =>
          ⟨c.metadata.documentName, c.id, cleanSourceText c.text,
           c.metadata.type, c.similarity⟩,
        reasoning := "Direct content analysis of Robert's transcript chunks." }
    else if jsIncludes queryLower "nathan" && directNathanChunks.length > 0 then
      { answer := "Based on Nathan's supervision sessions: " ++
          extractKeyInfo directNathanChunks queryLower,
        sources := sources ++ (directNathanChunks.take 3).map fun c =>
          ⟨c.metadata.documentName, c.id, cleanSourceText c.text,
           c.metadata.type, c.similarity⟩,
        reasoning := "Direct content analysis of Nathan's transcript chunks." }
    else
      let ar : String × String :=
        if jsIncludes queryLower "compare" &&
            (jsIncludes queryLower "robert" || jsIncludes queryLower "nathan") then
          let robertInfo := transcriptChunks.filter fun c =>
            jsIncludes (jsToLower c.text) "robert"
          let nathanInfo := transcriptChunks.filter fun c =>
            jsIncludes (jsToLower c.text) "nathan"
          if robertInfo.length > 0 || nathanInfo.length > 0 then
            ("Comparing Robert and Nathan: " ++
               extractKeyInfo (robertInfo ++ nathanInfo) queryLower,
             "Comparative analysis of both Robert's and Nathan's supervision transcripts.")
          else ("", "")
        else if jsIncludes queryLower "robert" ||
            transcriptChunks.any (fun c => jsIncludes (jsToLower c.text) "robert") then
          let robertInfo := transcriptChunks.filter fun c =>
            jsIncludes (jsToLower c.text) "robert"
          if robertInfo.length > 0 then
            ("Based on Robert's supervision sessions: " ++
               extractKeyInfo robertInfo queryLower,
             "Analysis of Robert's transcript content from supervision sessions.")
          else ("", "")
        else if jsIncludes queryLower "nathan" ||
            transcriptChunks.any (fun c => jsIncludes (jsToLower c.text) "nathan") then
          let nathanInfo := transcriptChunks.filter fun c =>
            jsIncludes (jsToLower c.text) "nathan"
          if nathanInfo.length > 0 then
            ("Based on Nathan's supervision sessions: " ++
               extractKeyInfo nathanInfo queryLower,
             "Analysis of Nathan's transcript content from supervision sessions.")
          else ("", "")
        else if policyChunks.length > 0 then
          ("Based on the Community Corrections policy documents: " ++
             extractPolicyInfo policyChunks queryLower,
           "Analysis of relevant policy document sections.")
        else if transcriptChunks.length > 0 then
          ("Based on the supervision transcripts: " ++
             extractTranscriptInfo transcriptChunks queryLower,
           "Analysis of supervision session transcripts.")
        else
          (generateGenericResponse queryLower relevantChunks,
           "General content analysis using semantic similarity from processed documents.")
      { answer := ar.1, sources := sources, reasoning := ar.2 }

/-- The fixed part of the GPT-4o system prompt. -/
def systemPromptHeader : String :=
  "You are an AI assistant specialized in Community Corrections data analysis. You help answer questions about supervision transcripts and policy documents.\n\nINSTRUCTIONS:\n- Answer the user's question using ONLY the provided context\n- Be accurate and specific - cite relevant information from the context\n- If transcripts are relevant, reference specific conversations or quotes\n- If policies are relevant, reference specific procedures or requirements\n- For multi-hop questions, connect information across transcript and policy sources\n- Always indicate which documents you're referencing\n- If the context doesn't contain enough information, say so clearly\n- Do not make up information not present in the context\n\nCONTEXT:\n"

/-- `RAGService.generateRAGResponse`: fuse, bail out when empty, check
the API key, call GPT-4o, and fall back to content analysis on any
generation failure. -/
noncomputable def generateRAGResponse (env : Env) (query : String)
    (transcriptChunks policyChunks : List (Ranked JsNum)) : RAGResponse JsNum :=
  let allRelevantChunks := fuseTop8 transcriptChunks policyChunks
  if allRelevantChunks.length = 0 then
    { answer := "I couldn't find any relevant information in the processed documents to answer your question.",
      sources := [],
      reasoning := "No relevant chunks found with sufficient similarity to the query." }
  else if !env.openaiKeyValid then
    generateContentAnalysisResponse query allRelevantChunks
  else
    let context := buildContext allRelevantChunks
    let systemPrompt := systemPromptHeader ++ context
    let userPrompt := "Question: " ++ query ++
      "\n\nPlease answer this question based on the provided Community Corrections documents and transcripts."
    match env.openaiChat systemPrompt userPrompt with
    | .error _ => generateContentAnalysisResponse query allRelevantChunks
    | .ok content =>
      { answer := content.getD "I apologize, but I couldn't generate a response to your question.",
        sources := allRelevantChunks.map fun c =>
          ⟨c.metadata.documentName, c.id, cleanSourceText c.text,
           c.metadata.type, c.similarity⟩,
        reasoning := "Retrieved " ++ toString allRelevantChunks.length ++
          " relevant chunks from " ++ toString transcriptChunks.length ++
          " transcript chunks and " ++ toString policyChunks.length ++
          " policy chunks. Answer generated using GPT-4o with retrieved context." }

/-- `RAGService.processQuery`.  With a non-failing storage collaborator
every throwing backend call is caught inside the `try` body (the vector
search by the inner `catch`, the GPT-4o call inside
`generateRAGResponse`), so the outer `catch` — whose non-quota branch
rethrows `RAG processing failed: ...` — is unreachable; the `Except`
result type records that rethrow path. -/
noncomputable def processQuery (env : Env) (query : String)
    (allChunks : List VectorChunk) : Except String (RAGResponse JsNum) :=
  if allChunks.length = 0 then
    .ok { answer := "No documents have been indexed yet. Please upload and process some documents first.",
          sources := [],
          reasoning := "No vector data available for retrieval." }
  else
    let hasEmbeddings := allChunks.any fun c => c.embedding.length > 0
    if hasEmbeddings then
      match VectorService.multiHopRetrieval env query allChunks 3 3 with
      | .ok r => .ok (generateRAGResponse env query r.transcriptChunks r.policyChunks)
      | .error _ =>
        .ok (generateContentAnalysisResponse query
          (allChunks.map fun c => ⟨c, some 0.85⟩))
    else
      .ok (generateContentAnalysisResponse query
        (allChunks.map fun c => ⟨c, some 0.85⟩))

end RAGService

/-! ## `DemoProcessor.findRelevantChunks` (`demoProcessor.ts`)

The keyword scorer uses only the decimal literals 0.3, 0.4, 0.5, 0.2,
0.95, so its arithmetic is modelled exactly over `ℚ`. -/

namespace DemoProcessor

/-- `DemoProcessor.findRelevantChunks`: `+0.3` per query word occurring
in the chunk text, `+0.4` stress-topic boost, `+0.5` per entity-name
boost, clamped by `Math.min(score, 0.95)`; keep `similarity > 0.2`,
stable-sort descending, take top 5. -/
def findRelevantChunks (query : String) (chunks : List VectorChunk) :
    List (Ranked ℚ) :=
  let queryWords := jsSplitWs (jsToLower query)
  let scoredChunks := chunks.map fun chunk =>
    let chunkText := jsToLower chunk.text
    let score0 : ℚ :=
      queryWords.foldl (fun s w => if jsIncludes chunkText w then s + 0.3 else s) 0
    let score1 :=
      if (jsIncludes (jsToLower query) "work stress" ||
            jsIncludes (jsToLower query) "stress") &&
          (jsIncludes chunkText "stress" || jsIncludes chunkText "work" ||
            jsIncludes chunkText "taxes" || jsIncludes chunkText "money") then
        score0 + 0.4
      else score0
    let score2 :=
      if jsIncludes (jsToLower query) "nathan" &&
          jsIncludes (jsToLower chunk.metadata.documentName) "nathan" then
        score1 + 0.5
      else score1
    let score3 :=
      if jsIncludes (jsToLower query) "robert" &&
          jsIncludes (jsToLower chunk.metadata.documentName) "robert" then
        score2 + 0.5
      else score2
    (⟨chunk, min score3 0.95⟩ : Ranked ℚ)
  (((scoredChunks.filter fun c => 0.2 < c.similarity).insertionSort
      (fun a b : Ranked ℚ => b.similarity ≤ a.similarity)).take 5)

end DemoProcessor

/-! ## Decidability instances for the sort relations (classical on `ℝ`) -/

noncomputable instance rankedRealDescDec :
    DecidableRel fun a b : Ranked ℝ => b.similarity ≤ a.similarity :=
  fun _ _ => Real.decidableLE _ _

noncomputable instance pairRankedRealDescDec :
    DecidableRel fun p p' : Nat × Ranked ℝ => p'.2.similarity ≤ p.2.similarity :=
  fun _ _ => Real.decidableLE _ _

noncomputable instance pairDescKeepDec :
    DecidableRel fun p p' : Nat × Ranked JsNum => descKeep p.2 p'.2 :=
  fun p p' => inferInstanceAs (Decidable (descKeep p.2 p'.2))

noncomputable instance rankedGetDDescDec :
    DecidableRel fun a b : Ranked JsNum => b.similarity.getD 0 ≤ a.similarity.getD 0 :=
  fun _ _ => Real.decidableLE _ _

noncomputable instance pairRankedGetDDescDec :
    DecidableRel fun p p' : Nat × Ranked JsNum =>
      p'.2.similarity.getD 0 ≤ p.2.similarity.getD 0 :=
  fun _ _ => Real.decidableLE _ _

/-! ## Sort theory: descending stable sort by a key -/

section SortTheory

variable {α : Type*} {β : Type*} [LinearOrder β]

/-- `orderedInsert` only looks at the relation between the inserted
element and list members. -/
theorem orderedInsert_congr (r s : α → α → Prop) [DecidableRel r] [DecidableRel s]
    (a : α) (l : List α) (h : ∀ x ∈ l, (r a x ↔ s a x)) :
    l.orderedInsert r a = l.orderedInsert s a := by
  induction l with
  | nil => rfl
  | cons b t ih =>
    simp only [List.orderedInsert]
    by_cases hr : r a b
    · rw [if_pos hr, if_pos ((h b (by simp)).mp hr)]
    · rw [if_neg hr, if_neg (fun hs => hr ((h b (by simp)).mpr hs)),
        ih fun x hx => h x (by simp [hx])]

/-- Sorting is invariant under replacing the relation by one that agrees
on the list's elements. -/
theorem insertionSort_congr (r s : α → α → Prop) [DecidableRel r] [DecidableRel s]
    (l : List α) (h : ∀ a ∈ l, ∀ b ∈ l, r a b ↔ s a b) :
    l.insertionSort r = l.insertionSort s := by
  induction l with
  | nil => rfl
  | cons a t ih =>
    simp only [List.insertionSort]
    rw [ih fun x hx y hy => h x (by simp [hx]) y (by simp [hy])]
    exact orderedInsert_congr r s a _ fun x hx =>
      h a (by simp) x (by simp [(List.mem_insertionSort s).mp hx])

/-- Sorting with the key-descending relation yields a key-descending
pairwise-sorted list. -/
theorem sorted_insertionSort_key (v : α → β)
    [DecidableRel fun a b : α => v b ≤ v a] (l : List α) :
    (l.insertionSort fun a b => v b ≤ v a).Pairwise fun a b => v b ≤ v a := by
  haveI : IsTotal α fun a b => v b ≤ v a := ⟨fun a b => le_total (v b) (v a)⟩
  haveI : IsTrans α fun a b => v b ≤ v a := ⟨fun _ _ _ h1 h2 => le_trans h2 h1⟩
  exact List.sorted_insertionSort _ l

/-- Inserting an element whose index is below every index in a
strictly-descending-or-tie-ordered list keeps the strong
(strictly-descending-or-index-ordered-tie) pairwise property: the core
of the stability argument. -/
theorem orderedInsert_pairwise_key (v : α → β) (idx : α → Nat)
    [DecidableRel fun a b : α => v b ≤ v a] (a : α) (S : List α)
    (hS : S.Pairwise fun x y => v y < v x ∨ (v x = v y ∧ idx x < idx y))
    (ha : ∀ b ∈ S, idx a < idx b) :
    (S.orderedInsert (fun a b => v b ≤ v a) a).Pairwise
      fun x y => v y < v x ∨ (v x = v y ∧ idx x < idx y) := by
  induction S with
  | nil => simp
  | cons b T ih =>
    simp only [List.orderedInsert]
    by_cases hab : v b ≤ v a
    · rw [if_pos hab]
      refine List.Pairwise.cons (fun x hx => ?_) hS
      have hxb : v x ≤ v b := by
        rcases List.mem_cons.mp hx with h | h
        · exact le_of_eq (by rw [h])
        · rcases List.rel_of_pairwise_cons hS h with h1 | h1
          · exact le_of_lt h1
          · exact le_of_eq h1.1.symm
      rcases lt_or_eq_of_le (le_trans hxb hab) with h1 | h1
      · exact Or.inl h1
      · exact Or.inr ⟨h1.symm, ha x hx⟩
    · rw [if_neg hab]
      push_neg at hab
      refine List.Pairwise.cons (fun x hx => ?_)
        (ih hS.of_cons fun x hx => ha x (by simp [hx]))
      rcases (List.mem_orderedInsert _).mp hx with h | h
      · exact Or.inl (h ▸ hab)
      · exact List.rel_of_pairwise_cons hS h

/-- Stability of insertion sort by a descending key: if the input's
indices are strictly increasing, then in the sorted output any two
elements are either in strictly descending key order or tie with the
original input order preserved. -/
theorem insertionSort_pairwise_key (v : α → β) (idx : α → Nat)
    [DecidableRel fun a b : α => v b ≤ v a] (l : List α)
    (hidx : l.Pairwise fun x y => idx x < idx y) :
    (l.insertionSort fun a b => v b ≤ v a).Pairwise
      fun x y => v y < v x ∨ (v x = v y ∧ idx x < idx y) := by
  induction l with
  | nil => simp
  | cons a t ih =>
    simp only [List.insertionSort]
    exact orderedInsert_pairwise_key v idx a _ (ih hidx.of_cons)
      fun b hb => List.rel_of_pairwise_cons hidx ((List.mem_insertionSort _).mp hb)

/-- Stripping the indices off a decorated filtered list recovers the
plain filtered list. -/
theorem enum_filter_map_snd (l : List α) (p : α → Bool) :
    (l.enum.filter fun q => p q.2).map Prod.snd = l.filter p := by
  have h : (fun q : Nat × α => p q.2) = p ∘ Prod.snd := rfl
  rw [h, ← List.filter_map, List.enum_map_snd]

/-- `enum` decorates with strictly increasing indices. -/
theorem enum_pairwise_fst (l : List α) :
    l.enum.Pairwise fun p q => p.1 < q.1 := by
  have h := List.pairwise_lt_range l.length
  rw [← List.enum_map_fst l] at h
  exact List.pairwise_map.mp h

end SortTheory

/-! ## Helper facts about the NaN-aware comparisons -/

/-- A score that passes the `>= threshold` filter is a real number (not
NaN) at least the threshold. -/
theorem jsGeB_some {x : JsNum} {t : ℝ} (h : jsGeB x t = true) :
    ∃ v, x = some v ∧ t ≤ v := by
  cases x with
  | none => exact absurd h (by simp [jsGeB])
  | some v => exact ⟨v, rfl, of_decide_eq_true h⟩

/-- On NaN-free scores the JS sort comparator realises the descending
order of the underlying reals. -/
theorem descKeep_iff_getD {a b : Ranked JsNum} {x y : ℝ}
    (ha : a.similarity = some x) (hb : b.similarity = some y) :
    descKeep a b ↔ b.similarity.getD 0 ≤ a.similarity.getD 0 := by
  simp only [descKeep, ha, hb, jsSub, Option.getD_some]
  constructor
  · exact fun h => by linarith
  · exact fun h => by linarith

/-- The five ranking facts for `DemoVectorService.findSimilarChunks`:
sorted non-increasing, thresholded, at most `topK` results, and (via the
index-decorated run of the same pipeline) stability of ties. -/
theorem demo_ranker_props (q : List ℝ) (chunks : List VectorChunk) (k : Nat) (t : ℝ) :
    ((DemoVectorService.findSimilarChunks q chunks k t).Pairwise fun a b =>
      b.similarity ≤ a.similarity)
    ∧ (∀ c ∈ DemoVectorService.findSimilarChunks q chunks k t, t ≤ c.similarity)
    ∧ (DemoVectorService.findSimilarChunks q chunks k t).length ≤ k
    ∧ ((((DemoVectorService.rankAll q chunks).enum.filter fun p =>
          decide (t ≤ p.2.similarity)).insertionSort fun p p' =>
          p'.2.similarity ≤ p.2.similarity).map Prod.snd).take k =
        DemoVectorService.findSimilarChunks q chunks k t
    ∧ (((DemoVectorService.rankAll q chunks).enum.filter fun p =>
          decide (t ≤ p.2.similarity)).insertionSort fun p p' =>
          p'.2.similarity ≤ p.2.similarity).Pairwise fun p p' =>
          p'.2.similarity < p.2.similarity ∨
            (p.2.similarity = p'.2.similarity ∧ p.1 < p'.1) := by
  refine ⟨?_, fun c hc => ?_, ?_, ?_, ?_⟩
  · exact (sorted_insertionSort_key (fun c : Ranked ℝ => c.similarity) _).sublist
      (List.take_sublist _ _)
  · simp only [DemoVectorService.findSimilarChunks] at hc
    have h1 := (List.mem_insertionSort _).mp (List.mem_of_mem_take hc)
    exact of_decide_eq_true (List.mem_filter.mp h1).2
  · exact List.length_take_le _ _
  · rw [List.map_insertionSort
        (fun p p' : Nat × Ranked ℝ => p'.2.similarity ≤ p.2.similarity)
        (fun a b : Ranked ℝ => b.similarity ≤ a.similarity) Prod.snd _
        (fun a _ b _ => Iff.rfl),
      enum_filter_map_snd (DemoVectorService.rankAll q chunks)
        (fun c => decide (t ≤ c.similarity))]
    rfl
  · exact insertionSort_pairwise_key (fun p : Nat × Ranked ℝ => p.2.similarity)
      Prod.fst _ ((enum_pairwise_fst _).filter _)

/-- The five ranking facts for `VectorService.findSimilarChunks`, NaN
aware: every survivor of the threshold filter carries a real score. -/
theorem vector_ranker_props (q : List ℝ) (chunks : List VectorChunk) (k : Nat) (t : ℝ) :
    ((VectorService.findSimilarChunks q chunks k t).Pairwise fun a b =>
      ∃ x y, a.similarity = some x ∧ b.similarity = some y ∧ y ≤ x)
    ∧ (∀ c ∈ VectorService.findSimilarChunks q chunks k t,
        ∃ x, c.similarity = some x ∧ t ≤ x)
    ∧ (VectorService.findSimilarChunks q chunks k t).length ≤ k
    ∧ ((((VectorService.rankAll q chunks).enum.filter fun p =>
          jsGeB p.2.similarity t).insertionSort fun p p' =>
          descKeep p.2 p'.2).map Prod.snd).take k =
        VectorService.findSimilarChunks q chunks k t
    ∧ (((VectorService.rankAll q chunks).enum.filter fun p =>
          jsGeB p.2.similarity t).insertionSort fun p p' =>
          descKeep p.2 p'.2).Pairwise fun p p' =>
          ∃ x y, p.2.similarity = some x ∧ p'.2.similarity = some y ∧
            (y < x ∨ (x = y ∧ p.1 < p'.1)) := by
  have hsome : ∀ c ∈ (VectorService.rankAll q chunks).filter fun i =>
      jsGeB i.similarity t, ∃ x, c.similarity = some x ∧ t ≤ x :=
    fun c hc => jsGeB_some (List.mem_filter.mp hc).2
  have heq : ((VectorService.rankAll q chunks).filter fun i =>
        jsGeB i.similarity t).insertionSort descKeep =
      ((VectorService.rankAll q chunks).filter fun i =>
        jsGeB i.similarity t).insertionSort
        (fun a b : Ranked JsNum => b.similarity.getD 0 ≤ a.similarity.getD 0) := by
    refine insertionSort_congr _ _ _ fun a ha b hb => ?_
    obtain ⟨x, hx, _⟩ := hsome a ha
    obtain ⟨y, hy, _⟩ := hsome b hb
    exact descKeep_iff_getD hx hy
  refine ⟨?_, fun c hc => ?_, ?_, ?_, ?_⟩
  · have hp : (((VectorService.rankAll q chunks).filter fun i =>
        jsGeB i.similarity t).insertionSort descKeep).Pairwise
        fun a b : Ranked JsNum => b.similarity.getD 0 ≤ a.similarity.getD 0 := by
      rw [heq]
      exact sorted_insertionSort_key (fun c : Ranked JsNum => c.similarity.getD 0) _
    have hup : (((VectorService.rankAll q chunks).filter fun i =>
        jsGeB i.similarity t).insertionSort descKeep).Pairwise
        fun a b => ∃ x y, a.similarity = some x ∧ b.similarity = some y ∧ y ≤ x := by
      refine List.Pairwise.imp_of_mem (fun ha hb hr => ?_) hp
      obtain ⟨x, hx, _⟩ := hsome _ ((List.mem_insertionSort _).mp ha)
      obtain ⟨y, hy, _⟩ := hsome _ ((List.mem_insertionSort _).mp hb)
      refine ⟨x, y, hx, hy, ?_⟩
      simpa [hx, hy] using hr
    exact hup.sublist (List.take_sublist _ _)
  · simp only [VectorService.findSimilarChunks] at hc
    exact hsome _ ((List.mem_insertionSort _).mp (List.mem_of_mem_take hc))
  · exact List.length_take_le _ _
  · rw [List.map_insertionSort
        (fun p p' : Nat × Ranked JsNum => descKeep p.2 p'.2) descKeep Prod.snd _
        (fun a _ b _ => Iff.rfl),
      enum_filter_map_snd (VectorService.rankAll q chunks)
        (fun c => jsGeB c.similarity t)]
    rfl
  · have hsomeDec : ∀ p ∈ (VectorService.rankAll q chunks).enum.filter
        (fun p => jsGeB p.2.similarity t), ∃ x, p.2.similarity = some x ∧ t ≤ x :=
      fun p hp => jsGeB_some (List.mem_filter.mp hp).2
    have heqDec : ((VectorService.rankAll q chunks).enum.filter fun p =>
          jsGeB p.2.similarity t).insertionSort
          (fun p p' => descKeep p.2 p'.2) =
        ((VectorService.rankAll q chunks).enum.filter fun p =>
          jsGeB p.2.similarity t).insertionSort
          (fun p p' : Nat × Ranked JsNum =>
            p'.2.similarity.getD 0 ≤ p.2.similarity.getD 0) := by
      refine insertionSort_congr _ _ _ fun a ha b hb => ?_
      obtain ⟨x, hx, _⟩ := hsomeDec a ha
      obtain ⟨y, hy, _⟩ := hsomeDec b hb
      exact descKeep_iff_getD hx hy
    rw [heqDec]
    have hp := insertionSort_pairwise_key
      (fun p : Nat × Ranked JsNum => p.2.similarity.getD 0) Prod.fst _
      ((enum_pairwise_fst (VectorService.rankAll q chunks)).filter
        (fun p => jsGeB p.2.similarity t))
    refine List.Pairwise.imp_of_mem (fun ha hb hr => ?_) hp
    obtain ⟨x, hx, _⟩ := hsomeDec _ ((List.mem_insertionSort _).mp ha)
    obtain ⟨y, hy, _⟩ := hsomeDec _ ((List.mem_insertionSort _).mp hb)
    refine ⟨x, y, hx, hy, ?_⟩
    rcases hr with h | h
    · exact Or.inl (by simpa [hx, hy] using h)
    · exact Or.inr ⟨by simpa [hx, hy] using h.1, h.2⟩

/-! ## Helper facts for the normalization claim -/

/-- The token accumulator never yields an empty word list from a
non-empty accumulator. -/
theorem jsWordsAux_ne_nil (acc : List Char) (h : acc ≠ []) :
    ∀ l, jsWordsAux acc l ≠ [] := by
  intro l
  induction l generalizing acc with
  | nil => simp [jsWordsAux, h]
  | cons c cs ih =>
    simp only [jsWordsAux]
    by_cases hw : c.isWhitespace
    · simp only [hw, if_true]
      rw [if_neg (by simp [h])]
      simp
    · simp only [hw, if_false]
      exact ih _ (by simp)

/-- `split(/\s+/)` never returns an empty array (the empty string yields
`[""]`), so the word pass always adds at least one positive weight. -/
theorem jsSplitWs_ne_nil (s : String) : jsSplitWs s ≠ [] := by
  rw [jsSplitWs]
  cases hd : s.data with
  | nil => simp
  | cons c cs =>
    by_cases hw : c.isWhitespace
    · simp [hw]
    · simp only [hw, if_false, List.nil_append]
      intro hcon
      rcases List.append_eq_nil.mp hcon with ⟨h1, _⟩
      exact jsWordsAux_ne_nil [c] (by simp) cs
        (by simpa [jsWordsAux, hw] using List.map_eq_nil.mp h1)

/-- Adding a non-negative weight never decreases a feature slot. -/
theorem addAt_le (e : Fin 384 → ℝ) (i : Fin 384) (w : ℝ) (hw : 0 ≤ w) (j : Fin 384) :
    e j ≤ DemoVectorService.addAt e i w j := by
  unfold DemoVectorService.addAt
  rcases eq_or_ne j i with rfl | hne
  · rw [Function.update_same]; linarith
  · rw [Function.update_noteq hne]

/-- The word pass only increases feature slots. -/
theorem wordPass_fold_le (l : List (Nat × String)) :
    ∀ (e : Fin 384 → ℝ) (j : Fin 384),
      e j ≤ (l.foldl
        (fun e iw =>
          DemoVectorService.addAt e
            ⟨DemoVectorService.simpleHash iw.2 % 384, Nat.mod_lt _ (by norm_num)⟩
            (1 / ((iw.1 : ℝ) + 1))) e) j := by
  induction l with
  | nil => exact fun e j => le_rfl
  | cons p t ih =>
    intro e j
    have hwpos : (0 : ℝ) ≤ 1 / ((p.1 : ℝ) + 1) :=
      div_nonneg zero_le_one (by positivity)
    rw [List.foldl_cons]
    exact le_trans (addAt_le e _ _ hwpos j) (ih _ j)

/-- A keyword boost only increases feature slots. -/
theorem boost_le (text p q : String) (i : Fin 384) (w : ℝ) (hw : 0 ≤ w)
    (e : Fin 384 → ℝ) (j : Fin 384) :
    e j ≤ DemoVectorService.boost text p q i w e j := by
  unfold DemoVectorService.boost
  split_ifs
  · exact addAt_le e i w hw j
  · exact le_rfl

/-- Some slot of the pre-normalisation feature vector is at least `1`:
the first word (possibly the empty word, for whitespace-only input)
contributes `1/(0+1)` and no later step decreases any slot. -/
theorem preNormEmbedding_witness_pos (t : String) :
    ∃ j : Fin 384, 1 ≤ DemoVectorService.preNormEmbedding t j := by
  obtain ⟨w0, tl, hws⟩ := List.exists_cons_of_ne_nil (jsSplitWs_ne_nil (jsToLower t))
  refine ⟨⟨DemoVectorService.simpleHash w0 % 384, Nat.mod_lt _ (by norm_num)⟩, ?_⟩
  set j : Fin 384 := ⟨DemoVectorService.simpleHash w0 % 384, Nat.mod_lt _ (by norm_num)⟩
  have hword : 1 ≤ DemoVectorService.wordPass (jsSplitWs (jsToLower t)) j := by
    rw [DemoVectorService.wordPass, hws]
    have h0 : (List.enum (w0 :: tl)) = (0, w0) :: (tl.enumFrom 1) := by
      simp [List.enum]
    rw [h0, List.foldl_cons]
    refine le_trans ?_ (wordPass_fold_le _ _ j)
    show (1 : ℝ) ≤ DemoVectorService.addAt (fun _ => 0) j (1 / ((0 : ℕ) + 1)) j
    rw [DemoVectorService.addAt, Function.update_same]
    norm_num
  calc (1 : ℝ) ≤ DemoVectorService.wordPass (jsSplitWs (jsToLower t)) j := hword
    _ ≤ DemoVectorService.preNormEmbedding t j := by
        rw [DemoVectorService.preNormEmbedding]
        refine le_trans (boost_le t "Nathan" "nathan" 100 2 (by norm_num) _ j) ?_
        refine le_trans (boost_le t "Robert" "robert" 101 2 (by norm_num) _ j) ?_
        refine le_trans (boost_le t "stress" "financial" 200 1.5 (by norm_num) _ j) ?_
        refine le_trans (boost_le t "work" "employment" 201 1.5 (by norm_num) _ j) ?_
        refine le_trans (boost_le t "sobriety" "meetings" 202 1.5 (by norm_num) _ j) ?_
        refine le_trans (boost_le t "policy" "procedure" 300 1.5 (by norm_num) _ j) ?_
        refine le_trans (boost_le t "grievance" "appeal" 301 1.5 (by norm_num) _ j) ?_
        exact boost_le t "programming" "treatment" 302 1.5 (by norm_num) _ j

/-- The square-sum fold as a mapped list sum. -/
theorem sumSq_eq_sum (l : List ℝ) :
    DemoVectorService.sumSq l = (l.map fun x => x * x).sum := by
  have haux : ∀ (l : List ℝ) (s : ℝ),
      l.foldl (fun a x => a + x * x) s = s + (l.map fun x => x * x).sum := by
    intro l
    induction l with
    | nil => intro s; simp
    | cons x t ih => intro s; simp [ih]; ring
  rw [DemoVectorService.sumSq, haux, zero_add]

/-- The square sum scales with `c⁻²` under pointwise division by `c`. -/
theorem sumSq_map_div (l : List ℝ) (c : ℝ) :
    DemoVectorService.sumSq (l.map fun x => x / c) =
      DemoVectorService.sumSq l / (c * c) := by
  rw [sumSq_eq_sum, sumSq_eq_sum, List.map_map]
  have hcong : ((fun x => x * x) ∘ fun x : ℝ => x / c) =
      fun x : ℝ => (x * x) * (c * c)⁻¹ := by
    funext x
    simp only [Function.comp_apply, div_eq_mul_inv, mul_inv]
    ring
  rw [hcong, List.sum_map_mul_right, div_eq_mul_inv]

/-! ## Helper facts for the dimension-mismatch and cascade claims -/

/-- The three `cosineSimilarity` implementations on the spec's mismatch
scenario: the guarded demo version returns `0`, the two unguarded
versions return NaN. -/
theorem cosineSimilarity_mismatch_values :
    VectorService.cosineSimilarity [1, 2, 3] [1, 2] = none
    ∧ EnhancedRAGService.cosineSimilarity [1, 2, 3] [1, 2] = none
    ∧ DemoVectorService.cosineSimilarity [1, 2, 3] [1, 2] = 0 := by
  have hs : sumSqAll [1, 2, 3] = 14 := by norm_num [sumSqAll]
  have hs2 : sumSqAll [1, 2] = 5 := by norm_num [sumSqAll]
  have h14 : Real.sqrt (14 : ℝ) ≠ 0 := by
    rw [Real.sqrt_ne_zero']; norm_num
  have h5 : Real.sqrt (5 : ℝ) ≠ 0 := by
    rw [Real.sqrt_ne_zero']; norm_num
  refine ⟨?_, ?_, ?_⟩
  · simp only [VectorService.cosineSimilarity, hs, hs2]
    rw [if_neg (by push_neg; exact ⟨h14, h5⟩)]
    norm_num [List.range_succ, jsAdd, jsMul, jsDiv]
  · simp only [EnhancedRAGService.cosineSimilarity, hs, hs2]
    rw [if_neg (by push_neg; exact ⟨h14, h5⟩)]
    norm_num [List.range_succ, jsAdd, jsMul, jsDiv]
  · norm_num [DemoVectorService.cosineSimilarity]

/-- A unit score passes the `0.7` threshold. -/
theorem jsGeB_some_one : jsGeB (some 1) 0.7 = true := by
  simp only [jsGeB, decide_eq_true_eq]
  norm_num

/-- Cosine similarity of the one-dimensional unit vector with itself. -/
theorem cosineSimilarity_one_one : VectorService.cosineSimilarity [1] [1] = some 1 := by
  have h1 : sumSqAll [1] = 1 := by norm_num [sumSqAll]
  simp only [VectorService.cosineSimilarity, h1, Real.sqrt_one]
  rw [if_neg (by norm_num)]
  norm_num [show List.range 1 = [0] from rfl, List.foldl_cons, List.foldl_nil,
    jsAdd, jsMul, jsDiv]

/-! ## The claims -/

/-- C1 counterexample: with every generation backend raising (and the
OpenAI embedding succeeding), `RAGService.processQuery` on the query
`"compare robert"` over one policy chunk reaches the content-analysis
fallback but returns the empty answer: the `compare` branch is taken,
finds no Robert/Nathan transcript text, and leaves `answer = ""`. -/
theorem c1_processQuery_empty_answer_cex :
    Except.map RAGResponse.answer
      (RAGService.processQuery
        { openaiEmbed := fun _ => .ok [1], hfEmbed := fun _ => .error "hf down",
          openaiKeyValid := true, openaiChat := fun _ _ => .error "openai down",
          groq := fun _ _ => .error "groq down", gemini := fun _ _ => .error "gemini down",
          cohere := fun _ _ => .error "cohere down",
          together := fun _ _ => .error "together down" }
        "compare robert"
        [⟨"p1", "policy says", [1], ⟨1, "grievance", "policy", 0⟩⟩]) = .ok "" := by
  have hmh : VectorService.multiHopRetrieval
      { openaiEmbed := fun _ => .ok [1], hfEmbed := fun _ => .error "hf down",
        openaiKeyValid := true, openaiChat := fun _ _ => .error "openai down",
        groq := fun _ _ => .error "groq down", gemini := fun _ _ => .error "gemini down",
        cohere := fun _ _ => .error "cohere down",
        together := fun _ _ => .error "together down" }
      "compare robert" [⟨"p1", "policy says", [1], ⟨1, "grievance", "policy", 0⟩⟩] 3 3 =
      .ok ⟨[], [⟨⟨"p1", "policy says", [1], ⟨1, "grievance", "policy", 0⟩⟩, some 1⟩], [1]⟩ := by
    simp only [VectorService.multiHopRetrieval, VectorService.findSimilarChunksByType,
      VectorService.findSimilarChunks, VectorService.rankAll, List.filter, List.map,
      cosineSimilarity_one_one, jsGeB_some_one, List.insertionSort, List.orderedInsert,
      List.take]
  simp only [RAGService.processQuery]
  rw [hmh]
  rfl

/-- C1 (amended): failures of the embedding and generation backends are
never surfaced to the caller — `RAGService.processQuery` always returns
`.ok` (and `EnhancedRAGService.processQueryWithFallbacks` is total by
construction) — and in `processQueryWithFallbacks`, when every free
generation backend raises (the OpenAI backend always raises) and the
fused ranked list is non-empty, the result is the content-analysis
response, whose answer is non-empty and whose reasoning names the
content-analysis fallback.  For `RAGService.processQuery` the
non-empty-answer guarantee fails (see the counterexample), so the claim
holds only in this weakened form. -/
theorem c1_cascade_exhaustion_amended :
    (∀ (env : Env) (query : String) (chunks : List VectorChunk),
      ∃ r, RAGService.processQuery env query chunks = .ok r)
    ∧ (∀ (env : Env) (query : String) (t p : List (Ranked JsNum)),
      (∀ a b, ∃ m1, env.groq a b = .error m1) →
      (∀ a b, ∃ m2, env.gemini a b = .error m2) →
      (∀ a b, ∃ m3, env.cohere a b = .error m3) →
      (∀ a b, ∃ m4, env.together a b = .error m4) →
      fuseTop8 t p ≠ [] →
      EnhancedRAGService.afterRanking env query t p =
        EnhancedRAGService.generateContentAnalysisResponse query (fuseTop8 t p)
      ∧ (EnhancedRAGService.afterRanking env query t p).answer ≠ ""
      ∧ (EnhancedRAGService.afterRanking env query t p).reasoning =
          "Generated using content analysis fallback when APIs are unavailable.") := by
  constructor
  · intro env query chunks
    rw [RAGService.processQuery]
    by_cases h0 : chunks.length = 0
    · rw [if_pos h0]; exact ⟨_, rfl⟩
    · rw [if_neg h0]
      by_cases he : chunks.any fun c => c.embedding.length > 0
      · simp only [he, if_true]
        cases VectorService.multiHopRetrieval env query chunks 3 3 with
        | ok r => exact ⟨_, rfl⟩
        | error e => exact ⟨_, rfl⟩
      · simp only [he, if_false]
        exact ⟨_, rfl⟩
  · intro env query t p hgroq hgemini hcohere htogether hne
    have hrun : ∀ c, EnhancedRAGService.runApis
        (EnhancedRAGService.apiList env query c) = ("", "") := by
      intro c
      obtain ⟨m1, h1⟩ := hgroq query c
      obtain ⟨m2, h2⟩ := hgemini query c
      obtain ⟨m3, h3⟩ := hcohere query c
      obtain ⟨m4, h4⟩ := htogether query c
      simp only [EnhancedRAGService.apiList, EnhancedRAGService.tryOpenAI,
        EnhancedRAGService.runApis, h1, h2, h3, h4]
    have hlen : ¬ (fuseTop8 t p).length = 0 := by
      simpa [List.length_eq_zero] using hne
    have hout : EnhancedRAGService.afterRanking env query t p =
        EnhancedRAGService.generateContentAnalysisResponse query (fuseTop8 t p) := by
      rw [EnhancedRAGService.afterRanking]
      simp only [if_neg hlen, hrun]
      rfl
    refine ⟨hout, ?_, ?_⟩
    · rw [hout]
      simp [EnhancedRAGService.generateContentAnalysisResponse]
    · rw [hout]
      rfl

/-- C2 counterexample: on the spec's mismatch scenario
`cosineSimilarity([1,2,3],[1,2])`, `VectorService` and
`EnhancedRAGService` produce NaN (`none`) — neither raising nor `0` —
while `DemoVectorService` returns `0`, so the implementations do not
apply one consistent mismatch contract. -/
theorem c2_mismatch_inconsistent_cex :
    VectorService.cosineSimilarity [1, 2, 3] [1, 2] = none
    ∧ EnhancedRAGService.cosineSimilarity [1, 2, 3] [1, 2] = none
    ∧ DemoVectorService.cosineSimilarity [1, 2, 3] [1, 2] = 0 :=
  cosineSimilarity_mismatch_values

/-- C2 (amended): `DemoVectorService.cosineSimilarity` returns `0` on
every dimension mismatch, but `VectorService.cosineSimilarity` and
`EnhancedRAGService.cosineSimilarity` perform no length check and
produce NaN (modelled `none`) on `([1,2,3],[1,2])`, so the mismatch
behaviour differs across the implementations. -/
theorem c2_dimension_mismatch_amended :
    (∀ a b : List ℝ, a.length ≠ b.length → DemoVectorService.cosineSimilarity a b = 0)
    ∧ VectorService.cosineSimilarity [1, 2, 3] [1, 2] = none
    ∧ EnhancedRAGService.cosineSimilarity [1, 2, 3] [1, 2] = none := by
  refine ⟨fun a b h => ?_, cosineSimilarity_mismatch_values.1,
    cosineSimilarity_mismatch_values.2.1⟩
  rw [DemoVectorService.cosineSimilarity, if_pos h]

/-- C3: for every query vector, chunk list, `topK` and `threshold`, both
rankers (`DemoVectorService.findSimilarChunks` and
`VectorService.findSimilarChunks`) return a list sorted non-increasing
by similarity, every returned similarity is `>= threshold` (in the
NaN-aware pipeline: is a real number at least the threshold), the output
length is `<= topK`, and — running the identical pipeline on
index-decorated chunks — ties are kept in original input order. -/
theorem c3_ranker_sorted_threshold_topk_stable (q : List ℝ)
    (chunks : List VectorChunk) (k : Nat) (t : ℝ) :
    (((DemoVectorService.findSimilarChunks q chunks k t).Pairwise fun a b =>
      b.similarity ≤ a.similarity)
    ∧ (∀ c ∈ DemoVectorService.findSimilarChunks q chunks k t, t ≤ c.similarity)
    ∧ (DemoVectorService.findSimilarChunks q chunks k t).length ≤ k
    ∧ ((((DemoVectorService.rankAll q chunks).enum.filter fun p =>
          decide (t ≤ p.2.similarity)).insertionSort fun p p' =>
          p'.2.similarity ≤ p.2.similarity).map Prod.snd).take k =
        DemoVectorService.findSimilarChunks q chunks k t
    ∧ (((DemoVectorService.rankAll q chunks).enum.filter fun p =>
          decide (t ≤ p.2.similarity)).insertionSort fun p p' =>
          p'.2.similarity ≤ p.2.similarity).Pairwise fun p p' =>
          p'.2.similarity < p.2.similarity ∨
            (p.2.similarity = p'.2.similarity ∧ p.1 < p'.1))
    ∧ (((VectorService.findSimilarChunks q chunks k t).Pairwise fun a b =>
      ∃ x y, a.similarity = some x ∧ b.similarity = some y ∧ y ≤ x)
    ∧ (∀ c ∈ VectorService.findSimilarChunks q chunks k t,
        ∃ x, c.similarity = some x ∧ t ≤ x)
    ∧ (VectorService.findSimilarChunks q chunks k t).length ≤ k
    ∧ ((((VectorService.rankAll q chunks).enum.filter fun p =>
          jsGeB p.2.similarity t).insertionSort fun p p' =>
          descKeep p.2 p'.2).map Prod.snd).take k =
        VectorService.findSimilarChunks q chunks k t
    ∧ (((VectorService.rankAll q chunks).enum.filter fun p =>
          jsGeB p.2.similarity t).insertionSort fun p p' =>
          descKeep p.2 p'.2).Pairwise fun p p' =>
          ∃ x y, p.2.similarity = some x ∧ p'.2.similarity = some y ∧
            (y < x ∨ (x = y ∧ p.1 < p'.1))) :=
  ⟨demo_ranker_props q chunks k t, vector_ranker_props q chunks k t⟩

/-- C4: every chunk returned by the category-filtered rankers
(`findSimilarChunksByType` of `DemoVectorService`, `VectorService` and
`EnhancedRAGService`) has metadata category equal to the requested
category. -/
theorem c4_category_partition (q : List ℝ) (chunks : List VectorChunk)
    (ty : String) (k : Nat) (t : ℝ) :
    (∀ c ∈ DemoVectorService.findSimilarChunksByType q chunks ty k t,
      c.metadata.type = ty)
    ∧ (∀ c ∈ VectorService.findSimilarChunksByType q chunks ty k t,
      c.metadata.type = ty)
    ∧ (∀ c ∈ EnhancedRAGService.findSimilarChunksByType q chunks ty k,
      c.metadata.type = ty) := by
  refine ⟨fun c hc => ?_, fun c hc => ?_, fun c hc => ?_⟩
  · simp only [DemoVectorService.findSimilarChunksByType,
      DemoVectorService.findSimilarChunks, DemoVectorService.rankAll] at hc
    have h1 := (List.mem_insertionSort _).mp (List.mem_of_mem_take hc)
    have h2 := (List.mem_filter.mp h1).1
    obtain ⟨c0, hc0, rfl⟩ := List.mem_map.mp h2
    have := (List.mem_filter.mp hc0).2
    exact beq_iff_eq.mp this
  · simp only [VectorService.findSimilarChunksByType,
      VectorService.findSimilarChunks, VectorService.rankAll] at hc
    have h1 := (List.mem_insertionSort _).mp (List.mem_of_mem_take hc)
    have h2 := (List.mem_filter.mp h1).1
    obtain ⟨c0, hc0, rfl⟩ := List.mem_map.mp h2
    have := (List.mem_filter.mp hc0).2
    exact beq_iff_eq.mp this
  · simp only [EnhancedRAGService.findSimilarChunksByType] at hc
    have h1 := (List.mem_insertionSort _).mp (List.mem_of_mem_take hc)
    have h2 := (List.mem_filter.mp h1).1
    obtain ⟨c0, hc0, rfl⟩ := List.mem_map.mp h2
    have := (List.mem_filter.mp hc0).2
    exact beq_iff_eq.mp this

/-- C5: the `Ranked`-state fusion concatenates
`transcriptChunks ++ policyChunks`, stable-sorts descending by
similarity and keeps at most the first 8; in particular transcript
similarities `[0.9, 0.4]` and policy similarities `[0.8, 0.2]` fuse in
the order `[0.9, 0.8, 0.4, 0.2]`, and on NaN-free inputs the fused list
is sorted non-increasing. -/
theorem c5_fusion_top8 :
    (∀ c1 c2 c3 c4 : VectorChunk,
      (fuseTop8 [⟨c1, some 0.9⟩, ⟨c2, some 0.4⟩]
          [⟨c3, some 0.8⟩, ⟨c4, some 0.2⟩]).map (fun c => c.similarity) =
        [some 0.9, some 0.8, some 0.4, some 0.2])
    ∧ (∀ t p : List (Ranked JsNum), (fuseTop8 t p).length ≤ 8)
    ∧ (∀ t p : List (Ranked JsNum),
        (∀ c ∈ t ++ p, ∃ x, c.similarity = some x) →
        (fuseTop8 t p).Pairwise fun a b =>
          ∃ x y, a.similarity = some x ∧ b.similarity = some y ∧ y ≤ x) := by
  refine ⟨fun c1 c2 c3 c4 => ?_, fun t p => ?_, fun t p hsome => ?_⟩
  · norm_num [fuseTop8, List.insertionSort, List.orderedInsert, descKeep, jsSub]
  · exact List.length_take_le _ _
  · have heq : (t ++ p).insertionSort descKeep =
        (t ++ p).insertionSort
          (fun a b : Ranked JsNum => b.similarity.getD 0 ≤ a.similarity.getD 0) := by
      refine insertionSort_congr _ _ _ fun a ha b hb => ?_
      obtain ⟨x, hx⟩ := hsome a ha
      obtain ⟨y, hy⟩ := hsome b hb
      exact descKeep_iff_getD hx hy
    have hp : ((t ++ p).insertionSort descKeep).Pairwise
        fun a b : Ranked JsNum => b.similarity.getD 0 ≤ a.similarity.getD 0 := by
      rw [heq]
      exact sorted_insertionSort_key (fun c : Ranked JsNum => c.similarity.getD 0) _
    have hup : ((t ++ p).insertionSort descKeep).Pairwise
        fun a b => ∃ x y, a.similarity = some x ∧ b.similarity = some y ∧ y ≤ x := by
      refine List.Pairwise.imp_of_mem (fun ha hb hr => ?_) hp
      obtain ⟨x, hx⟩ := hsome _ ((List.mem_insertionSort _).mp ha)
      obtain ⟨y, hy⟩ := hsome _ ((List.mem_insertionSort _).mp hb)
      exact ⟨x, y, hx, hy, by simpa [hx, hy] using hr⟩
    exact hup.sublist (List.take_sublist _ _)

/-- C6: on an empty chunk collection both `RAGService.processQuery` and
`EnhancedRAGService.processQueryWithFallbacks` return (without raising)
the fixed response with empty sources whose answer contains the word
`upload` (guidance to upload documents). -/
theorem c6_empty_corpus_guidance (env : Env) (query : String) :
    RAGService.processQuery env query [] =
      .ok { answer := "No documents have been indexed yet. Please upload and process some documents first.",
            sources := [],
            reasoning := "No vector data available for retrieval." }
    ∧ EnhancedRAGService.processQueryWithFallbacks env query [] =
      { answer := "No documents have been indexed yet. Please upload and process some documents first.",
        sources := [],
        reasoning := "No vector data available for retrieval." }
    ∧ "No documents have been indexed yet. Please upload and process some documents first." =
        "No documents have been indexed yet. Please " ++ "upload" ++
          " and process some documents first." :=
  ⟨rfl, rfl, rfl⟩

/-- C7: `DemoProcessor.findRelevantChunks` returns at most 5 chunks,
every returned score is `> 0.2` and `<= 0.95`; the chunk
`"Nathan discussed stress about property taxes"` (category transcript)
is returned for the query `"What did Nathan say about stress?"` with
similarity exactly `0.95` (hence `<= 0.95`), whatever its document
name. -/
theorem c7_fallback_analyzer_bounds :
    (∀ (query : String) (chunks : List VectorChunk),
      (DemoProcessor.findRelevantChunks query chunks).length ≤ 5
      ∧ ∀ c ∈ DemoProcessor.findRelevantChunks query chunks,
          0.2 < c.similarity ∧ c.similarity ≤ 0.95)
    ∧ (∀ (id docName : String) (docId idx : Nat) (emb : List ℝ),
      DemoProcessor.findRelevantChunks "What did Nathan say about stress?"
        [⟨id, "Nathan discussed stress about property taxes", emb,
          ⟨docId, docName, "transcript", idx⟩⟩] =
        [⟨⟨id, "Nathan discussed stress about property taxes", emb,
          ⟨docId, docName, "transcript", idx⟩⟩, 0.95⟩]) := by
  constructor
  · intro query chunks
    refine ⟨List.length_take_le _ _, fun c hc => ?_⟩
    simp only [DemoProcessor.findRelevantChunks] at hc
    have h1 := (List.mem_insertionSort _).mp (List.mem_of_mem_take hc)
    have h2 := List.mem_filter.mp h1
    constructor
    · exact of_decide_eq_true h2.2
    · obtain ⟨c0, _, rfl⟩ := List.mem_map.mp h2.1
      exact min_le_right _ _
  · intro id docName docId idx emb
    have hq : jsToLower "What did Nathan say about stress?" =
        "what did nathan say about stress?" := by decide
    have ht : jsToLower "Nathan discussed stress about property taxes" =
        "nathan discussed stress about property taxes" := by decide
    have hw : jsSplitWs "what did nathan say about stress?" =
        ["what", "did", "nathan", "say", "about", "stress?"] := by decide
    have b1 : jsIncludes "nathan discussed stress about property taxes" "what" = false := by decide
    have b2 : jsIncludes "nathan discussed stress about property taxes" "did" = false := by decide
    have b3 : jsIncludes "nathan discussed stress about property taxes" "nathan" = true := by decide
    have b4 : jsIncludes "nathan discussed stress about property taxes" "say" = false := by decide
    have b5 : jsIncludes "nathan discussed stress about property taxes" "about" = true := by decide
    have b6 : jsIncludes "nathan discussed stress about property taxes" "stress?" = false := by decide
    have bqws : jsIncludes "what did nathan say about stress?" "work stress" = false := by decide
    have bqs : jsIncludes "what did nathan say about stress?" "stress" = true := by decide
    have bts : jsIncludes "nathan discussed stress about property taxes" "stress" = true := by decide
    have bqn : jsIncludes "what did nathan say about stress?" "nathan" = true := by decide
    have bqr : jsIncludes "what did nathan say about stress?" "robert" = false := by decide
    simp only [DemoProcessor.findRelevantChunks, List.map, hq, ht, hw]
    simp only [List.foldl, b1, b2, b3, b4, b5, b6, bqws, bqs, bts, bqn, bqr,
      eq_self_iff_true, if_true, Bool.false_eq_true, if_false,
      Bool.false_or, Bool.true_or, Bool.true_and, Bool.false_and]
    by_cases hdoc : jsIncludes (jsToLower docName) "nathan" = true
    · simp only [hdoc, eq_self_iff_true, if_true]
      norm_num [min_def, List.filter, List.insertionSort, List.orderedInsert]
    · simp only [hdoc, Bool.false_eq_true, if_false]
      norm_num [min_def, List.filter, List.insertionSort, List.orderedInsert]

/-- C8: the L2 norm of the local deterministic embedding is `1` unless
every component of the pre-normalisation feature vector is zero (then
the returned vector is all zeros with norm `0`) — and the zero case is
in fact unreachable: some feature slot is always positive. -/
theorem c8_local_embedding_norm (t : String) :
    Real.sqrt (DemoVectorService.sumSq (DemoVectorService.generateSingleEmbedding t)) =
      (if ∀ i, DemoVectorService.preNormEmbedding t i = 0 then 0 else 1)
    ∧ ¬ ∀ i, DemoVectorService.preNormEmbedding t i = 0 := by
  obtain ⟨j, hj⟩ := preNormEmbedding_witness_pos t
  have hnot : ¬ ∀ i, DemoVectorService.preNormEmbedding t i = 0 := by
    intro hall
    have := hall j
    rw [this] at hj
    linarith
  refine ⟨?_, hnot⟩
  rw [if_neg hnot]
  have hsum : DemoVectorService.sumSq (List.ofFn (DemoVectorService.preNormEmbedding t)) =
      ∑ i, DemoVectorService.preNormEmbedding t i * DemoVectorService.preNormEmbedding t i := by
    rw [sumSq_eq_sum, List.map_ofFn, List.sum_ofFn]
    rfl
  have hpos : 0 < DemoVectorService.sumSq (List.ofFn (DemoVectorService.preNormEmbedding t)) := by
    rw [hsum]
    have h1 : (1 : ℝ) ≤ DemoVectorService.preNormEmbedding t j *
        DemoVectorService.preNormEmbedding t j := by nlinarith
    have h2 := Finset.single_le_sum
      (f := fun i => DemoVectorService.preNormEmbedding t i *
        DemoVectorService.preNormEmbedding t i)
      (fun i _ => mul_self_nonneg _) (Finset.mem_univ j)
    simp only [] at h2
    linarith
  have hm := Real.sqrt_pos.mpr hpos
  simp only [DemoVectorService.generateSingleEmbedding, hm, if_true]
  rw [sumSq_map_div, Real.mul_self_sqrt (le_of_lt hpos), div_self (ne_of_gt hpos)]
  exact Real.sqrt_one

/-- C9: for the query `"nathan"` and three chunks whose text contains
`nathan`, `RAGService.generateContentAnalysisResponse` first maps all
three relevant chunks into `sources` and then pushes the same three
direct-match chunks again, so the sources list has 6 (> 5) entries and
repeats each `chunkId`. -/
theorem c9_duplicate_sources :
    (RAGService.generateContentAnalysisResponse "nathan"
      [⟨⟨"na1", "nathan session one", [], ⟨1, "doc1", "transcript", 0⟩⟩, some 0.85⟩,
       ⟨⟨"na2", "nathan session two", [], ⟨1, "doc1", "transcript", 1⟩⟩, some 0.85⟩,
       ⟨⟨"na3", "nathan session three", [], ⟨1, "doc1", "transcript", 2⟩⟩, some 0.85⟩]).sources.map
      (fun s => s.chunkId) = ["na1", "na2", "na3", "na1", "na2", "na3"]
    ∧ 5 < (RAGService.generateContentAnalysisResponse "nathan"
      [⟨⟨"na1", "nathan session one", [], ⟨1, "doc1", "transcript", 0⟩⟩, some 0.85⟩,
       ⟨⟨"na2", "nathan session two", [], ⟨1, "doc1", "transcript", 1⟩⟩, some 0.85⟩,
       ⟨⟨"na3", "nathan session three", [], ⟨1, "doc1", "transcript", 2⟩⟩, some 0.85⟩]).sources.length :=
  ⟨rfl, by decide⟩

/-- C10: `EnhancedRAGService.tryOpenAI` raises on every input, so the
generation cascade never attributes an answer to the `OpenAI` backend
and always advances at least to the second backend (the cascade over
the full backend list equals the cascade over its tail). -/
theorem c10_openai_backend_always_fails :
    (∀ query context : String,
      EnhancedRAGService.tryOpenAI query context = .error "OpenAI not available")
    ∧ (∀ (env : Env) (query context : String),
        (EnhancedRAGService.runApis (EnhancedRAGService.apiList env query context)).2 ≠ "OpenAI")
    ∧ (∀ (env : Env) (query context : String),
        EnhancedRAGService.runApis (EnhancedRAGService.apiList env query context) =
          EnhancedRAGService.runApis ((EnhancedRAGService.apiList env query context).tail)) := by
  refine ⟨fun _ _ => rfl, fun env q c => ?_, fun env q c => rfl⟩
  simp only [EnhancedRAGService.apiList, EnhancedRAGService.runApis,
    EnhancedRAGService.tryOpenAI]
  cases env.groq q c with
  | ok a => simp [EnhancedRAGService.runApis]
  | error e =>
    cases env.gemini q c with
    | ok a => simp [EnhancedRAGService.runApis]
    | error e2 =>
      cases env.cohere q c with
      | ok a => simp [EnhancedRAGService.runApis]
      | error e3 =>
        cases env.together q c with
        | ok a => simp [EnhancedRAGService.runApis]
        | error e4 => simp [EnhancedRAGService.runApis]
